import Mathlib

/-!
Verification of the pharmacy-management-system stock-ledger core.

The definitions below are shallow embeddings of the Python source:
`src/modules/purchase.py`, `src/modules/sales.py`,
`src/modules/notifications.py` and `src/db_connector.py`.
Quantities are `Int` (Python ints), monetary amounts are `ℚ`
(Python floats modelled as exact rationals), database tables are lists,
and the injected-failure behaviour of `execute_query` /
`execute_transaction` is modelled by explicit failure oracles.
-/

namespace PharmacyERP

/-! ## Stock operations on a single item (claim about receive / return / sell)

`purchase.py` `_mark_po_as_received` runs `StockQty = StockQty + qty`;
`purchase.py` `_create_return_form` runs `StockQty = StockQty - qty`,
bounding the requested quantity only by the original purchase-order line
quantity (`number_input` with `min_value=1, max_value=max_qty` where
`max_qty = selected_item_data["Quantity"]`);
`sales.py` `_save_invoice` runs `StockQty = StockQty - qty`, where the
form bounds the quantity by the currently displayed stock
(`max_value = max_stock if max_stock > 0 else 1`). -/

/-- One UI-level stock operation on a single item: a purchase-order
receive of `q` units, a sale of `q` units, or a purchase return of `q`
units against the received line with index `line`. -/
inductive StockOp where
  | receive (q : Int)
  | sell (q : Int)
  | ret (line : Nat) (q : Int)
  deriving DecidableEq, Repr

/-- State of one stock item: its current quantity and the quantities of
the purchase-order lines received so far (the bounds the return form
offers). -/
structure ItemState where
  stock : Int
  lines : List Int
  deriving DecidableEq, Repr

/-- Upper bound the sales form puts on a sale quantity
(`max_value = max_stock if max_stock > 0 else 1` in
`sales.py` `_render_invoice_form`). -/
def sellMax (s : Int) : Int := if 0 < s then s else 1

/-- One admissible step, with exactly the bounds the source forms
enforce: a receive appends a line and adds to stock (PO line quantities
have `min_value=1`); a sale is bounded by `sellMax` of the current
stock; a return is bounded by the original line quantity only, with no
reference to the current stock or to prior returns. -/
def stepOp (st : ItemState) : StockOp → Option ItemState
  | .receive q => if 1 ≤ q then some ⟨st.stock + q, st.lines ++ [q]⟩ else none
  | .sell q =>
    if 1 ≤ q ∧ q ≤ sellMax st.stock then some ⟨st.stock - q, st.lines⟩ else none
  | .ret i q =>
    match st.lines.get? i with
    | some lq => if 1 ≤ q ∧ q ≤ lq then some ⟨st.stock - q, st.lines⟩ else none
    | none => none

/-- Run a sequence of admissible operations; `none` when some step is
not accepted by the corresponding form. -/
def runTrace (st : ItemState) : List StockOp → Option ItemState
  | [] => some st
  | op :: rest =>
    match stepOp st op with
    | some st2 => runTrace st2 rest
    | none => none

/-- Sum of the received quantities of a trace. -/
def sumReceived : List StockOp → Int
  | [] => 0
  | .receive q :: r => q + sumReceived r
  | _ :: r => sumReceived r

/-- Sum of the sold quantities of a trace. -/
def sumSold : List StockOp → Int
  | [] => 0
  | .sell q :: r => q + sumSold r
  | _ :: r => sumSold r

/-- Sum of the returned quantities of a trace. -/
def sumReturned : List StockOp → Int
  | [] => 0
  | .ret _ q :: r => q + sumReturned r
  | _ :: r => sumReturned r

/-! ## Marking a purchase order received (`purchase.py` `_mark_po_as_received`)

The method builds one query list — a status update followed by one
`StockQty = StockQty + qty` update per line item — and hands it to
`db_connector.execute_transaction`, which commits only if every query
succeeds and otherwise rolls back (`conn.rollback()`), so a failure at
any position leaves the database exactly as it was. -/

/-- Sum of the quantities a line-item list `(MedicineID, Quantity)`
carries for one medicine id. -/
def itemSum (items : List (Nat × Int)) (mid : Nat) : Int :=
  ((items.filter (fun it => it.1 = mid)).map (fun it => it.2)).sum

/-- Apply every `StockQty = StockQty + qty` update of a received order. -/
def addStockAll : List (Nat × Int) → (Nat → Int) → (Nat → Int)
  | [], st => st
  | it :: rest, st =>
    addStockAll rest (fun m => if m = it.1 then st m + it.2 else st m)

/-- State the receive transaction touches: the order status and the
per-medicine stock quantities. -/
structure ReceiveState where
  status : String
  stock : Nat → Int

/-- Shallow embedding of `PurchaseModule._mark_po_as_received` composed
with `db_connector.execute_transaction`: the query list is the status
update plus one stock update per item; `failAt = some k` injects a
failure at query index `k`, and a failure inside the list rolls the
whole transaction back. Returns the new state and the success flag. -/
def mark_po_as_received (failAt : Option Nat) (items : List (Nat × Int))
    (s : ReceiveState) : ReceiveState × Bool :=
  let applied : ReceiveState := ⟨"Received", addStockAll items s.stock⟩
  match failAt with
  | some k => if k < 1 + items.length then (s, false) else (applied, true)
  | none => (applied, true)

/-! ## Saving a sales invoice (`sales.py` `_save_invoice`)

The method runs `execute_query` (each call a separately committed
statement) for: the invoice INSERT, then — only if `paid_amount > 0` —
the payment INSERT, then one `StockQty = StockQty - qty` UPDATE per
item. Only the first call's success flag is inspected; the return
values of the payment and stock statements are discarded. -/

/-- State `_save_invoice` touches: invoice ids, payment rows
`(InvoiceID, Amount)`, and per-medicine stock. -/
structure SalesDB where
  invoices : List Nat
  payments : List (Nat × ℚ)
  stock : Nat → Int

/-- Input of `_save_invoice`: the invoice line items
`(product_id, qty)` and the paid amount. -/
structure InvoiceInput where
  items : List (Nat × Int)
  paid : ℚ

/-- Run the per-item stock UPDATE statements, numbered from `k`; a
statement whose index the failure oracle hits is simply not applied
(its rollback affects only itself) and the loop continues, as in the
source where the results of these `execute_query` calls are ignored. -/
def stockDecrements (fail : Nat → Bool) :
    Nat → List (Nat × Int) → (Nat → Int) → (Nat → Int)
  | _, [], st => st
  | k, it :: rest, st =>
    stockDecrements fail (k + 1) rest
      (if fail k then st else fun m => if m = it.1 then st m - it.2 else st m)

/-- Shallow embedding of `SalesModule._save_invoice` over
`db_connector.execute_query`: statement 0 is the invoice INSERT (its
failure aborts the whole operation with `None`); when `paid > 0`,
statement 1 is the payment INSERT; the remaining statements are the
stock UPDATEs. Each statement commits on its own and later failures
are ignored. The fresh invoice id models `cursor.lastrowid`. -/
def save_invoice (fail : Nat → Bool) (inv : InvoiceInput) (db : SalesDB) :
    SalesDB × Option Nat :=
  if fail 0 then (db, none)
  else
    let lastId := db.invoices.length + 1
    let db1 : SalesDB := { db with invoices := db.invoices ++ [lastId] }
    let pr : SalesDB × Nat :=
      if 0 < inv.paid then
        (if fail 1 then db1
         else { db1 with payments := db1.payments ++ [(lastId, inv.paid)] }, 2)
      else (db1, 1)
    let db3 : SalesDB := { pr.1 with stock := stockDecrements fail pr.2 inv.items pr.1.stock }
    (db3, some lastId)

/-! ## Purchase return form (`purchase.py` `_create_return_form`)

The form's only quantity validation is the `number_input` widget bounds
`min_value=1, max_value=max_qty` with
`max_qty = selected_item_data["Quantity"]`, the original purchase-order
line quantity; prior returns recorded in `purchase_returns` are never
consulted. An accepted submission runs the return INSERT and the stock
decrement through `execute_transaction` (assumed to succeed here). -/

/-- Return-relevant state for one `(order, item)` pair: the current
stock quantity and the previously recorded return quantities. -/
structure ReturnState where
  stock : Int
  priorReturns : List Int
  deriving DecidableEq, Repr

/-- The quantity bound the return form enforces: the widget interval
`[1, lineQty]`. -/
def returnQtyAllowed (lineQty q : Int) : Bool :=
  decide (1 ≤ q) && decide (q ≤ lineQty)

/-- Shallow embedding of `PurchaseModule._create_return_form` for a
chosen order line of quantity `lineQty`: an in-bounds request inserts
the return row and decrements stock; an out-of-bounds request cannot be
submitted, leaving the state unchanged. -/
def create_return_form (lineQty q : Int) (st : ReturnState) :
    ReturnState × Bool :=
  if returnQtyAllowed lineQty q then
    (⟨st.stock - q, st.priorReturns ++ [q]⟩, true)
  else (st, false)

/-! ## Invoice totals and status (`sales.py` `_render_invoice_form`,
`_save_invoice`) -/

/-- One invoice line: quantity (integer `number_input`, `min_value=1`)
and unit price. -/
structure SaleLine where
  qty : Nat
  price : ℚ
  deriving DecidableEq, Repr

/-- The line total `item["qty"] * item["price"]`. -/
def lineTotal (l : SaleLine) : ℚ := (l.qty : ℚ) * l.price

/-- Subtotal exactly as the form loop accumulates it
(`subtotal += line_total` starting from `subtotal = 0`). -/
def formSubtotal (items : List SaleLine) : ℚ :=
  items.foldl (fun acc l => acc + lineTotal l) 0

/-- The five stored amounts of a finalized invoice. -/
structure InvoiceTotals where
  subtotal : ℚ
  discountAmount : ℚ
  taxAmount : ℚ
  grandTotal : ℚ
  balanceDue : ℚ
  deriving DecidableEq, Repr

/-- Shallow embedding of the amount computation in
`_render_invoice_form` (lines 246-247, 283-286, 294), whose results are
passed verbatim to `_save_invoice` and stored. -/
def computeTotals (items : List SaleLine) (discountPct taxPct paid : ℚ) :
    InvoiceTotals :=
  let subtotal := formSubtotal items
  let discountAmount := subtotal * (discountPct / 100)
  let subAfterDiscount := subtotal - discountAmount
  let taxAmount := subAfterDiscount * (taxPct / 100)
  let grandTotal := subAfterDiscount + taxAmount
  ⟨subtotal, discountAmount, taxAmount, grandTotal, grandTotal - paid⟩

/-- Shallow embedding of the status expression in `_save_invoice`:
`"Paid" if balance_due <= 0 else "Partially Paid" if paid_amount > 0
else "Pending"`. -/
def invoiceStatus (balance_due paid_amount : ℚ) : String :=
  if balance_due ≤ 0 then "Paid"
  else if 0 < paid_amount then "Partially Paid"
  else "Pending"

/-! ## Notification engine (`notifications.py`) -/

/-- A row of the `notifications` table. -/
structure Notif where
  ntype : String
  message : String
  category : String
  severity : String
  rtable : String
  relId : Nat
  status : String
  deriving DecidableEq, Repr

/-- The argument tuple of `_create_notification_if_not_exists`:
`(n_type, message, category, severity, table, rel_id)`. -/
structure AlertReq where
  ntype : String
  message : String
  category : String
  severity : String
  rtable : String
  relId : Nat
  deriving DecidableEq, Repr

/-- The WHERE clause of the dedup check: same `Type`, `RelatedTable`,
`RelatedID` and `Status='Unread'`. -/
def matchesUnread (req : AlertReq) (m : Notif) : Bool :=
  m.ntype == req.ntype && m.rtable == req.rtable &&
    m.relId == req.relId && m.status == "Unread"

/-- Whether the dedup SELECT finds an existing unread row. -/
def hasUnread (db : List Notif) (req : AlertReq) : Bool :=
  db.any (matchesUnread req)

/-- Number of unread rows for the `(Type, RelatedTable, RelatedID)` key
of a request. -/
def unreadCountFor (db : List Notif) (req : AlertReq) : Nat :=
  (db.filter (matchesUnread req)).length

/-- At most one unread notification exists per
`(Type, RelatedTable, RelatedID)` key. -/
def atMostOneUnread (db : List Notif) : Prop :=
  ∀ req : AlertReq, unreadCountFor db req ≤ 1

/-- Modelled from the spec: the INSERT in
`_create_notification_if_not_exists` lists no `Status` column, so the
inserted row's status comes from the table schema's column default,
which is not part of the sources; the spec's data model
(`status ∈ {Unread, Read}`, dedup against `Unread`) fixes it as
`Unread`. -/
def insertedNotif (req : AlertReq) : Notif :=
  ⟨req.ntype, req.message, req.category, req.severity, req.rtable, req.relId, "Unread"⟩

/-- Shallow embedding of
`NotificationsManager._create_notification_if_not_exists`. -/
def createIfNotExists (db : List Notif) (req : AlertReq) : List Notif :=
  if hasUnread db req then db else db ++ [insertedNotif req]

/-- One generation run (`generate_notifications`) over the alert
requests the scans produce; generation only reads `medicines` and
`customers`, so the request list is unchanged by the run itself. -/
def generateFrom (db : List Notif) (reqs : List AlertReq) : List Notif :=
  reqs.foldl createIfNotExists db

/-- A row of the `medicines` table as the inventory scan reads it. -/
structure Medicine where
  mid : Nat
  name : String
  stockQty : Int
  isActive : Bool
  deriving DecidableEq, Repr

/-- The message f-string of the low-stock branch. -/
def lowStockMessage (m : Medicine) : String :=
  "Low stock: '" ++ m.name ++ "' has only " ++ toString m.stockQty ++
    " units left."

/-- The alert request the low-stock branch of
`_generate_inventory_alerts` builds for one medicine row, including the
severity rule `"High" if StockQty <= high_sev_stock_threshold else
"Medium"`. -/
def lowStockReq (highT : Int) (m : Medicine) : AlertReq :=
  ⟨"Low Stock", lowStockMessage m, "Inventory",
    if m.stockQty ≤ highT then "High" else "Medium", "medicines", m.mid⟩

/-- The medicines the low-stock branch alerts on: the SQL filter
`WHERE IsActive=TRUE` followed by the DataFrame filter
`StockQty <= low_stock_threshold`. -/
def lowStockRows (lowT : Int) (meds : List Medicine) : List Medicine :=
  (meds.filter (fun m => m.isActive)).filter (fun m => decide (m.stockQty ≤ lowT))

/-- The alert requests one inventory low-stock scan produces. -/
def lowStockScan (lowT highT : Int) (meds : List Medicine) : List AlertReq :=
  (lowStockRows lowT meds).map (lowStockReq highT)

/-! ## Threshold settings (`notifications.py` `__init__`) -/

/-- Lookup in the dict built by
`pd.Series(settings.value.values, index=settings.key_name).to_dict()`:
the last row with a given key wins. -/
def lookupSetting (rows : List (String × String)) (key : String) :
    Option String :=
  rows.foldl (fun acc kv => if kv.1 == key then some kv.2 else acc) none

/-- One `int(settings_dict.get(key, default))` step: a missing key
yields the default; a present value must parse as an integer
(`int(...)` raises otherwise and construction fails). -/
def parseSetting (rows : List (String × String)) (key : String)
    (deflt : Int) : Option Int :=
  match lookupSetting rows key with
  | none => some deflt
  | some s => s.toInt?

/-- The three thresholds `NotificationsManager.__init__` stores. -/
structure NotifThresholds where
  low_stock_threshold : Int
  high_sev_stock_threshold : Int
  expiry_warning_days : Int
  deriving DecidableEq, Repr

/-- Shallow embedding of the threshold part of
`NotificationsManager.__init__`, fed with the rows the settings query
`WHERE key_name LIKE 'notification_%'` returns. -/
def initThresholds (rows : List (String × String)) :
    Option NotifThresholds :=
  match parseSetting rows "notification_low_stock_threshold" 10,
      parseSetting rows "notification_high_severity_stock_threshold" 5,
      parseSetting rows "notification_expiry_warning_days" 30 with
  | some a, some b, some c => some ⟨a, b, c⟩
  | _, _, _ => none

/-! ## Purchase-order delete (`purchase.py` `_handle_po_delete`,
`_display_purchase_orders`) -/

/-- A row of `purchase_orders` as the delete path sees it. -/
structure PoRecord where
  poId : Nat
  status : String
  deriving DecidableEq, Repr

/-- Whether `_display_purchase_orders` renders the Delete button for a
row (`if row["Status"] == "Pending"`). -/
def deleteOffered (r : PoRecord) : Bool := r.status == "Pending"

/-- Shallow embedding of `PurchaseModule._handle_po_delete`: the SQL
`DELETE FROM purchase_orders WHERE PurchaseOrderID = %s`, with no
status check of its own. -/
def handle_po_delete (orders : List PoRecord) (poId : Nat) :
    List PoRecord :=
  orders.filter (fun r => r.poId ≠ poId)

end PharmacyERP

namespace PharmacyERP

theorem stepOp_stock {st st' : ItemState} {op : StockOp}
    (h : stepOp st op = some st') :
    st'.stock = st.stock +
      (match op with
       | .receive q => q
       | .sell q => -q
       | .ret _ q => -q) := by
  cases op with
  | receive q =>
    by_cases hc : 1 ≤ q
    · simp only [stepOp, if_pos hc] at h
      cases h; simp
    · simp only [stepOp, if_neg hc] at h
      exact Option.noConfusion h
  | sell q =>
    by_cases hc : 1 ≤ q ∧ q ≤ sellMax st.stock
    · simp only [stepOp, if_pos hc] at h
      cases h; simp; ring
    · simp only [stepOp, if_neg hc] at h
      exact Option.noConfusion h
  | ret i q =>
    cases hg : st.lines.get? i with
    | none =>
      simp only [stepOp, hg] at h
      exact Option.noConfusion h
    | some lq =>
      by_cases hc : 1 ≤ q ∧ q ≤ lq
      · simp only [stepOp, hg, if_pos hc] at h
        cases h; simp; ring
      · simp only [stepOp, hg, if_neg hc] at h
        exact Option.noConfusion h

theorem runTrace_identity (ops : List StockOp) :
    ∀ (st st' : ItemState), runTrace st ops = some st' →
      st'.stock = st.stock + sumReceived ops - sumReturned ops - sumSold ops := by
  induction ops with
  | nil =>
    intro st st' h
    simp only [runTrace] at h
    cases h
    simp [sumReceived, sumReturned, sumSold]
  | cons op rest ih =>
    intro st st' h
    simp only [runTrace] at h
    cases hs : stepOp st op with
    | none => rw [hs] at h; exact absurd h (by simp)
    | some st2 =>
      rw [hs] at h
      have h2 := ih st2 st' h
      have h1 := stepOp_stock hs
      cases op with
      | receive q =>
        simp only [sumReceived, sumReturned, sumSold] at *
        omega
      | sell q =>
        simp only [sumReceived, sumReturned, sumSold] at *
        omega
      | ret i q =>
        simp only [sumReceived, sumReturned, sumSold] at *
        omega

theorem itemSum_nil (mid : Nat) : itemSum [] mid = 0 := rfl

theorem itemSum_cons (it : Nat × Int) (rest : List (Nat × Int)) (mid : Nat) :
    itemSum (it :: rest) mid =
      (if it.1 = mid then it.2 else 0) + itemSum rest mid := by
  by_cases h : it.1 = mid
  · simp [itemSum, h]
  · simp [itemSum, h]

theorem addStockAll_eq (items : List (Nat × Int)) :
    ∀ (st : Nat → Int) (mid : Nat),
      addStockAll items st mid = st mid + itemSum items mid := by
  induction items with
  | nil => intro st mid; simp [addStockAll, itemSum_nil]
  | cons it rest ih =>
    intro st mid
    simp only [addStockAll]
    rw [ih, itemSum_cons]
    by_cases hm : mid = it.1
    · rw [if_pos hm, if_pos hm.symm]; ring
    · rw [if_neg hm, if_neg (fun h => hm h.symm)]; ring

/-- C1 (amended). For every admissible sequence of receive, return and
sales operations on one stock item, the final quantity equals the
initial quantity plus the received sum minus the returned sum minus the
sold sum. (The claim's further part — that the quantity is never
observed negative — is false on the code; see the counterexample.) -/
theorem C1_stock_identity (st st' : ItemState) (ops : List StockOp)
    (h : runTrace st ops = some st') :
    st'.stock = st.stock + sumReceived ops - sumReturned ops - sumSold ops :=
  runTrace_identity ops st st' h

/-- Witness for C1_stock_identity at a concrete trace. -/
theorem C1_stock_identity_witness :
    (⟨6, [3]⟩ : ItemState).stock =
      (⟨5, []⟩ : ItemState).stock +
        sumReceived [StockOp.receive 3, StockOp.sell 2] -
        sumReturned [StockOp.receive 3, StockOp.sell 2] -
        sumSold [StockOp.receive 3, StockOp.sell 2] :=
  C1_stock_identity ⟨5, []⟩ ⟨6, [3]⟩ [StockOp.receive 3, StockOp.sell 2]
    (by decide)

/-- Counterexample to C1 as stated: starting from quantity 0, receive
10 units, sell 9 (within the sales form's bound), then return 10
against the received line (within the return form's bound, which checks
only the original line quantity): every step is accepted by the code's
forms, yet the observed final quantity is -9 < 0. -/
theorem C1_counterexample :
    runTrace ⟨0, []⟩ [StockOp.receive 10, StockOp.sell 9, StockOp.ret 0 10] =
      some ⟨-9, [10]⟩ ∧ (-9 : Int) < 0 := by
  decide

/-- C3. Marking a Pending purchase order received runs the status
update and all stock increments through one all-or-nothing
`execute_transaction`: either it succeeds, the status is Received and
every medicine's stock grows by the ordered quantities, or a failure at
any query position leaves the status Pending and every quantity
unchanged. -/
theorem C3_receive_atomic (failAt : Option Nat) (items : List (Nat × Int))
    (s : ReceiveState) (hp : s.status = "Pending") :
    ((mark_po_as_received failAt items s).2 = true ∧
      (mark_po_as_received failAt items s).1.status = "Received" ∧
      ∀ mid, (mark_po_as_received failAt items s).1.stock mid =
        s.stock mid + itemSum items mid) ∨
    ((mark_po_as_received failAt items s).2 = false ∧
      (mark_po_as_received failAt items s).1.status = "Pending" ∧
      ∀ mid, (mark_po_as_received failAt items s).1.stock mid = s.stock mid) := by
  cases failAt with
  | none =>
    left
    exact ⟨rfl, rfl, fun mid => addStockAll_eq items s.stock mid⟩
  | some k =>
    by_cases hk : k < 1 + items.length
    · right
      have he : mark_po_as_received (some k) items s = (s, false) := by
        simp [mark_po_as_received, hk]
      rw [he]
      exact ⟨rfl, hp, fun mid => rfl⟩
    · left
      have he : mark_po_as_received (some k) items s =
          (⟨"Received", addStockAll items s.stock⟩, true) := by
        simp [mark_po_as_received, hk]
      rw [he]
      exact ⟨rfl, rfl, fun mid => addStockAll_eq items s.stock mid⟩

/-- Witness for C3_receive_atomic: receiving a concrete one-line
Pending order with no failure sets the status to Received. -/
theorem C3_receive_atomic_witness :
    (mark_po_as_received none [(1, 5)] ⟨"Pending", fun _ => 0⟩).1.status =
      "Received" := by
  rcases C3_receive_atomic none [(1, 5)] ⟨"Pending", fun _ => 0⟩ rfl with h | h
  · exact h.2.1
  · exact absurd h.1 (by decide)

/-- C4 (amended). The purchase-return form validates the requested
quantity only against the widget interval `[1, lineQty]`, where
`lineQty` is the original purchase-order line quantity: every request
inside that interval is accepted and applied — the return row inserted
and the stock decremented — regardless of prior returns for the same
order and item and regardless of the current stock level; no
IntegrityError path exists. -/
theorem C4_return_clamp_only (lineQty q : Int) (st : ReturnState)
    (h1 : 1 ≤ q) (h2 : q ≤ lineQty) :
    create_return_form lineQty q st =
      (⟨st.stock - q, st.priorReturns ++ [q]⟩, true) := by
  have ha : returnQtyAllowed lineQty q = true := by
    simp [returnQtyAllowed, h1, h2]
  simp [create_return_form, ha]

/-- Witness for C4_return_clamp_only at a concrete over-returning
request. -/
theorem C4_return_clamp_only_witness :
    create_return_form 10 10 ⟨10, [10]⟩ = (⟨0, [10, 10]⟩, true) :=
  C4_return_clamp_only 10 10 ⟨10, [10]⟩ (by decide) (by decide)

/-- Counterexample to C4 as stated: against a line of 10 received units
with 10 units already returned, the remaining returnable amount is 0,
yet a further return of 10 passes the form's only check and is applied
(return row inserted, stock decremented) instead of being rejected with
an IntegrityError and leaving the state unchanged. -/
theorem C4_counterexample :
    ((10 : Int) - ([10] : List Int).sum < 10) ∧
    returnQtyAllowed 10 10 = true ∧
    create_return_form 10 10 ⟨10, [10]⟩ = (⟨0, [10, 10]⟩, true) := by
  decide

/-- C9 (amended). The Delete action is offered in the purchase-order
list exactly for rows whose status is Pending; the delete handler
itself performs no status check — it removes every row with the given
id from `purchase_orders`, and keeps every other row, whatever the
status. -/
theorem C9_delete_ui_guard (orders : List PoRecord) (poId : Nat)
    (r : PoRecord) (hr : r ∈ orders) :
    (deleteOffered r = true ↔ r.status = "Pending") ∧
    (r.poId = poId → r ∉ handle_po_delete orders poId) ∧
    (r.poId ≠ poId → r ∈ handle_po_delete orders poId) := by
  refine ⟨?_, ?_, ?_⟩
  · simp [deleteOffered]
  · intro he hmem
    rw [handle_po_delete, List.mem_filter] at hmem
    exact absurd he (by simpa using hmem.2)
  · intro hne
    rw [handle_po_delete, List.mem_filter]
    exact ⟨hr, by simpa using hne⟩

/-- Witness for C9_delete_ui_guard at a concrete Pending row. -/
theorem C9_delete_ui_guard_witness :
    deleteOffered ⟨3, "Pending"⟩ = true :=
  (C9_delete_ui_guard [⟨3, "Pending"⟩] 3 ⟨3, "Pending"⟩
    (List.mem_singleton.mpr rfl)).1.mpr rfl

/-- Counterexample to C9 as stated: `_handle_po_delete` invoked on an
order whose status is Received deletes the record — the resulting table
is empty, not unchanged — and reports success rather than failing with
InvalidState. (The only guard in the source is that the UI does not
render the Delete button for non-Pending rows.) -/
theorem C9_counterexample :
    deleteOffered ⟨7, "Received"⟩ = false ∧
    handle_po_delete [⟨7, "Received"⟩] 7 = [] ∧
    ([] : List PoRecord) ≠ [⟨7, "Received"⟩] := by
  decide

theorem lookupSetting_no_match (key : String) :
    ∀ (rows : List (String × String)) (acc : Option String),
      (∀ kv ∈ rows, kv.1 ≠ key) →
      rows.foldl (fun a kv => if kv.1 == key then some kv.2 else a) acc = acc := by
  intro rows
  induction rows with
  | nil => intro acc _; rfl
  | cons kv rest ih =>
    intro acc h
    have hk : (kv.1 == key) = false := by
      simpa using h kv (List.mem_cons_self kv rest)
    simp only [List.foldl, hk, Bool.false_eq_true, if_false]
    exact ih acc (fun x hx => h x (List.mem_cons_of_mem kv hx))

/-- C10. When the settings rows contain none of the three
`notification_*` keys (in particular when the lookup returns no rows),
the notification manager is still constructed and stores the default
thresholds 10 (low stock), 5 (high severity) and 30 (expiry warning
days). -/
theorem C10_default_thresholds (rows : List (String × String))
    (h : ∀ kv ∈ rows,
      kv.1 ≠ "notification_low_stock_threshold" ∧
      kv.1 ≠ "notification_high_severity_stock_threshold" ∧
      kv.1 ≠ "notification_expiry_warning_days") :
    initThresholds rows = some ⟨10, 5, 30⟩ := by
  have h1 : lookupSetting rows "notification_low_stock_threshold" = none :=
    lookupSetting_no_match _ rows none (fun kv hkv => (h kv hkv).1)
  have h2 : lookupSetting rows "notification_high_severity_stock_threshold" = none :=
    lookupSetting_no_match _ rows none (fun kv hkv => (h kv hkv).2.1)
  have h3 : lookupSetting rows "notification_expiry_warning_days" = none :=
    lookupSetting_no_match _ rows none (fun kv hkv => (h kv hkv).2.2)
  simp [initThresholds, parseSetting, h1, h2, h3]

/-- Witness for C10_default_thresholds: no settings rows at all. -/
theorem C10_default_thresholds_witness :
    initThresholds [] = some ⟨10, 5, 30⟩ :=
  C10_default_thresholds [] (fun kv hkv => absurd hkv (List.not_mem_nil kv))

theorem stockDecrements_ok (fail : Nat → Bool) (hf : ∀ j, fail j = false)
    (items : List (Nat × Int)) :
    ∀ (k : Nat) (st : Nat → Int) (mid : Nat),
      stockDecrements fail k items st mid = st mid - itemSum items mid := by
  induction items with
  | nil => intro k st mid; simp [stockDecrements, itemSum_nil]
  | cons it rest ih =>
    intro k st mid
    simp only [stockDecrements, hf k, Bool.false_eq_true, if_false]
    rw [ih (k + 1), itemSum_cons]
    by_cases hm : mid = it.1
    · simp only [if_pos hm, if_pos hm.symm]; ring
    · have hm2 : ¬it.1 = mid := fun h => hm h.symm
      simp only [if_neg hm, if_neg hm2]
      ring

/-- C2 (amended). `_save_invoice` issues the invoice INSERT, the
payment INSERT (only when the paid amount is positive) and the
per-item stock UPDATEs as separate auto-committed statements: a failed
invoice INSERT aborts with nothing observable, but once the invoice
INSERT has committed the invoice row stays observable whatever happens
to the later statements, whose failures are ignored; when every
statement succeeds, the payment row exists exactly when the paid amount
is positive and every line item's stock is decremented. -/
theorem C2_save_invoice_behavior (fail : Nat → Bool) (inv : InvoiceInput)
    (db : SalesDB) :
    (fail 0 = true → save_invoice fail inv db = (db, none)) ∧
    (fail 0 = false →
      (save_invoice fail inv db).1.invoices =
        db.invoices ++ [db.invoices.length + 1]) ∧
    ((∀ j, fail j = false) →
      (save_invoice fail inv db).1.invoices =
        db.invoices ++ [db.invoices.length + 1] ∧
      (save_invoice fail inv db).1.payments =
        (if 0 < inv.paid then
          db.payments ++ [(db.invoices.length + 1, inv.paid)]
         else db.payments) ∧
      (∀ mid, (save_invoice fail inv db).1.stock mid =
        db.stock mid - itemSum inv.items mid) ∧
      (save_invoice fail inv db).2 = some (db.invoices.length + 1)) := by
  refine ⟨?_, ?_, ?_⟩
  · intro h0; simp [save_invoice, h0]
  · intro h0
    by_cases hp : 0 < inv.paid <;> by_cases h1 : fail 1 = true <;>
      simp [save_invoice, h0, hp, h1]
  · intro hall
    have h0 := hall 0
    have h1 := hall 1
    by_cases hp : 0 < inv.paid <;>
      simp [save_invoice, h0, h1, hp, stockDecrements_ok fail hall inv.items]

/-- Witness for C2_save_invoice_behavior: with no failures, saving a
one-line cash invoice returns the fresh invoice id. -/
theorem C2_save_invoice_behavior_witness :
    (save_invoice (fun _ => false) ⟨[(1, 3)], 5⟩ ⟨[], [], fun _ => 10⟩).2 =
      some 1 :=
  ((C2_save_invoice_behavior (fun _ => false) ⟨[(1, 3)], 5⟩
    ⟨[], [], fun _ => 10⟩).2.2 (fun _ => rfl)).2.2.2

/-- Counterexample to C2 as stated: with a paid amount of 5 > 0 the
payment INSERT (statement 1) is executed and fails, yet afterwards the
invoice row is observable and the line item's stock has been
decremented from 10 to 7, while no payment row exists — the operation
is not all-or-nothing. -/
theorem C2_counterexample :
    (0 : ℚ) < 5 ∧
    (fun k : Nat => k == 1) 1 = true ∧
    (save_invoice (fun k => k == 1) ⟨[(1, 3)], 5⟩
      ⟨[], [], fun _ => 10⟩).1.invoices = [1] ∧
    (save_invoice (fun k => k == 1) ⟨[(1, 3)], 5⟩
      ⟨[], [], fun _ => 10⟩).1.payments = [] ∧
    (save_invoice (fun k => k == 1) ⟨[(1, 3)], 5⟩
      ⟨[], [], fun _ => 10⟩).1.stock 1 = 7 := by
  refine ⟨by norm_num, rfl, rfl, rfl, rfl⟩

/-- C5 (amended). With the stored balance equal to grandTotal minus
paidAmount and a nonnegative paid amount, the stored status is Paid iff
balanceDue ≤ 0, Partially Paid iff 0 < paidAmount < grandTotal, and
Pending iff paidAmount = 0 and grandTotal > 0. (The claim's parenthesis
— that paidAmount = 0 yields Pending even for grandTotal = 0 — is
false; see the counterexample.) -/
theorem C5_status_mapping (grand paid : ℚ) (hp : 0 ≤ paid) :
    (invoiceStatus (grand - paid) paid = "Paid" ↔ grand - paid ≤ 0) ∧
    (invoiceStatus (grand - paid) paid = "Partially Paid" ↔
      0 < paid ∧ paid < grand) ∧
    (invoiceStatus (grand - paid) paid = "Pending" ↔
      paid = 0 ∧ 0 < grand) := by
  unfold invoiceStatus
  by_cases h1 : grand - paid ≤ 0
  · rw [if_pos h1]
    refine ⟨⟨fun _ => h1, fun _ => rfl⟩, ?_, ?_⟩
    · constructor
      · intro hs; exact absurd hs (by decide)
      · rintro ⟨-, hg⟩; exfalso; linarith
    · constructor
      · intro hs; exact absurd hs (by decide)
      · rintro ⟨hz, hg⟩; exfalso; rw [hz] at h1; simp at h1; linarith
  · rw [if_neg h1]
    by_cases h2 : 0 < paid
    · rw [if_pos h2]
      refine ⟨?_, ?_, ?_⟩
      · exact ⟨fun hs => absurd hs (by decide), fun hle => absurd hle h1⟩
      · exact ⟨fun _ => ⟨h2, by linarith [not_le.mp h1]⟩, fun _ => rfl⟩
      · exact ⟨fun hs => absurd hs (by decide),
          fun hx => absurd hx.1 (by linarith)⟩
    · rw [if_neg h2]
      have hz : paid = 0 := le_antisymm (not_lt.mp h2) hp
      refine ⟨?_, ?_, ?_⟩
      · exact ⟨fun hs => absurd hs (by decide), fun hle => absurd hle h1⟩
      · exact ⟨fun hs => absurd hs (by decide), fun hx => absurd hx.1 h2⟩
      · refine ⟨fun _ => ⟨hz, ?_⟩, fun _ => rfl⟩
        have := not_le.mp h1
        linarith

/-- Witness for C5_status_mapping: a half-paid invoice is stored as
Partially Paid. -/
theorem C5_status_mapping_witness :
    invoiceStatus ((100 : ℚ) - 50) 50 = "Partially Paid" :=
  ((C5_status_mapping 100 50 (by norm_num)).2.1).mpr (by norm_num)

/-- Counterexample to C5 as stated: an invoice with grandTotal = 0 and
paidAmount = 0 has balanceDue = 0 ≤ 0, so the code stores it as Paid,
not as Pending as the claim's parenthesis demands. -/
theorem C5_counterexample :
    invoiceStatus ((0 : ℚ) - 0) 0 = "Paid" ∧ "Paid" ≠ "Pending" := by
  constructor
  · norm_num [invoiceStatus]
  · decide

theorem foldl_add_lineTotal (items : List SaleLine) :
    ∀ acc : ℚ, items.foldl (fun a l => a + lineTotal l) acc =
      acc + (items.map lineTotal).sum := by
  induction items with
  | nil => intro acc; simp
  | cons l rest ih =>
    intro acc
    simp only [List.foldl, List.map, List.sum_cons]
    rw [ih]
    ring

theorem formSubtotal_eq (items : List SaleLine) :
    formSubtotal items = (items.map lineTotal).sum := by
  unfold formSubtotal
  rw [foldl_add_lineTotal]
  ring

/-- C6. The amounts `_render_invoice_form` computes and `_save_invoice`
stores satisfy exactly (hence within every positive epsilon):
subtotal = Σ(qty × unitPrice), discountAmount = subtotal × pct/100,
taxAmount = (subtotal − discountAmount) × taxPct/100,
grandTotal = (subtotal − discountAmount) + taxAmount and
balanceDue = grandTotal − paidAmount. -/
theorem C6_invoice_amounts (items : List SaleLine) (d t p ε : ℚ)
    (hε : 0 < ε) :
    (computeTotals items d t p).subtotal =
      (items.map (fun l => (l.qty : ℚ) * l.price)).sum ∧
    (computeTotals items d t p).discountAmount =
      (computeTotals items d t p).subtotal * d / 100 ∧
    (computeTotals items d t p).taxAmount =
      ((computeTotals items d t p).subtotal -
        (computeTotals items d t p).discountAmount) * t / 100 ∧
    (computeTotals items d t p).grandTotal =
      ((computeTotals items d t p).subtotal -
        (computeTotals items d t p).discountAmount) +
        (computeTotals items d t p).taxAmount ∧
    (computeTotals items d t p).balanceDue =
      (computeTotals items d t p).grandTotal - p ∧
    |(computeTotals items d t p).grandTotal -
      (((computeTotals items d t p).subtotal -
        (computeTotals items d t p).discountAmount) +
        (computeTotals items d t p).taxAmount)| < ε := by
  have hs : (computeTotals items d t p).subtotal = formSubtotal items := rfl
  have hd : (computeTotals items d t p).discountAmount =
      formSubtotal items * (d / 100) := rfl
  have ht : (computeTotals items d t p).taxAmount =
      (formSubtotal items - formSubtotal items * (d / 100)) * (t / 100) := rfl
  have hg : (computeTotals items d t p).grandTotal =
      (formSubtotal items - formSubtotal items * (d / 100)) +
        (formSubtotal items - formSubtotal items * (d / 100)) * (t / 100) := rfl
  have hb : (computeTotals items d t p).balanceDue =
      ((formSubtotal items - formSubtotal items * (d / 100)) +
        (formSubtotal items - formSubtotal items * (d / 100)) * (t / 100)) - p :=
    rfl
  refine ⟨?_, ?_, ?_, ?_, ?_, ?_⟩
  · rw [hs, formSubtotal_eq]; rfl
  · rw [hd, hs]; ring
  · rw [ht, hs, hd]; ring
  · rw [hg, hs, hd, ht]
  · rw [hb, hg]
  · rw [hg, hs, hd, ht, sub_self, abs_zero]
    exact hε

/-- Witness for C6_invoice_amounts at a concrete two-unit invoice. -/
theorem C6_invoice_amounts_witness :
    (computeTotals [⟨2, 3⟩] 10 20 1).balanceDue =
      (computeTotals [⟨2, 3⟩] 10 20 1).grandTotal - 1 :=
  (C6_invoice_amounts [⟨2, 3⟩] 10 20 1 1 (by norm_num)).2.2.2.2.1

theorem matchesUnread_insertedNotif (req : AlertReq) :
    matchesUnread req (insertedNotif req) = true := by
  simp [matchesUnread, insertedNotif]

theorem hasUnread_createIfNotExists_self (db : List Notif) (req : AlertReq) :
    hasUnread (createIfNotExists db req) req = true := by
  unfold createIfNotExists
  by_cases h : hasUnread db req = true
  · rw [if_pos h]; exact h
  · rw [if_neg h]
    simp [hasUnread, List.any_append, matchesUnread_insertedNotif]

theorem hasUnread_createIfNotExists_mono (db : List Notif) (r req : AlertReq)
    (h : hasUnread db req = true) :
    hasUnread (createIfNotExists db r) req = true := by
  unfold createIfNotExists
  by_cases hr : hasUnread db r = true
  · rw [if_pos hr]; exact h
  · rw [if_neg hr]
    unfold hasUnread at h ⊢
    rw [List.any_append, h, Bool.true_or]

theorem hasUnread_generateFrom_mono (reqs : List AlertReq) :
    ∀ (db : List Notif) (req : AlertReq), hasUnread db req = true →
      hasUnread (generateFrom db reqs) req = true := by
  induction reqs with
  | nil => intro db req h; exact h
  | cons r rest ih =>
    intro db req h
    simp only [generateFrom, List.foldl]
    exact ih _ req (hasUnread_createIfNotExists_mono db r req h)

theorem hasUnread_generateFrom_mem (reqs : List AlertReq) :
    ∀ (db : List Notif) (req : AlertReq), req ∈ reqs →
      hasUnread (generateFrom db reqs) req = true := by
  induction reqs with
  | nil => intro db req h; exact absurd h (List.not_mem_nil req)
  | cons r rest ih =>
    intro db req h
    simp only [generateFrom, List.foldl]
    rcases List.mem_cons.mp h with he | hm
    · subst he
      exact hasUnread_generateFrom_mono rest _ req
        (hasUnread_createIfNotExists_self db req)
    · exact ih _ req hm

theorem generateFrom_noop (reqs : List AlertReq) :
    ∀ db : List Notif, (∀ r ∈ reqs, hasUnread db r = true) →
      generateFrom db reqs = db := by
  induction reqs with
  | nil => intro db _; rfl
  | cons r rest ih =>
    intro db h
    have hc : createIfNotExists db r = db := by
      unfold createIfNotExists
      rw [if_pos (h r (List.mem_cons_self r rest))]
    simp only [generateFrom, List.foldl, hc]
    exact ih db (fun x hx => h x (List.mem_cons_of_mem r hx))

theorem unreadCountFor_append (db l : List Notif) (req : AlertReq) :
    unreadCountFor (db ++ l) req =
      unreadCountFor db req + unreadCountFor l req := by
  simp [unreadCountFor, List.filter_append]

theorem hasUnread_false_count (db : List Notif) (req : AlertReq)
    (h : hasUnread db req = false) : unreadCountFor db req = 0 := by
  unfold hasUnread at h
  rw [List.any_eq_false] at h
  unfold unreadCountFor
  rw [List.length_eq_zero, List.filter_eq_nil_iff]
  exact h

theorem unreadCountFor_singleton (x : Notif) (req : AlertReq) :
    unreadCountFor [x] req =
      if matchesUnread req x = true then 1 else 0 := by
  by_cases h : matchesUnread req x = true <;>
    simp [unreadCountFor, List.filter_cons, h]

theorem matchesUnread_key_congr (r req : AlertReq) (db : List Notif)
    (hk : matchesUnread req (insertedNotif r) = true) :
    unreadCountFor db req = unreadCountFor db r := by
  simp only [matchesUnread, insertedNotif, Bool.and_eq_true, beq_iff_eq] at hk
  unfold unreadCountFor
  congr 1
  apply List.filter_congr
  intro m _
  simp [matchesUnread, hk.1.1.1, hk.1.1.2, hk.1.2]

theorem atMostOne_createIfNotExists (db : List Notif) (r : AlertReq)
    (h : atMostOneUnread db) : atMostOneUnread (createIfNotExists db r) := by
  intro req
  unfold createIfNotExists
  by_cases hr : hasUnread db r = true
  · rw [if_pos hr]; exact h req
  · rw [if_neg hr]
    have hrf : hasUnread db r = false := by
      revert hr; cases hasUnread db r <;> simp
    rw [unreadCountFor_append, unreadCountFor_singleton]
    by_cases hm : matchesUnread req (insertedNotif r) = true
    · have hzero : unreadCountFor db req = 0 := by
        rw [matchesUnread_key_congr r req db hm]
        exact hasUnread_false_count db r hrf
      rw [hzero, if_pos hm]
    · rw [if_neg hm]
      simpa using h req

theorem atMostOne_generateFrom (reqs : List AlertReq) :
    ∀ db : List Notif, atMostOneUnread db →
      atMostOneUnread (generateFrom db reqs) := by
  induction reqs with
  | nil => intro db h; exact h
  | cons r rest ih =>
    intro db h
    simp only [generateFrom, List.foldl]
    exact ih _ (atMostOne_createIfNotExists db r h)

/-- C7. Over a fixed scan result, running notification generation twice
gives the same notification table (hence the same Unread set) as
running it once; generation preserves the invariant that at most one
Unread notification exists per (Type, RelatedTable, RelatedID) key; and
for any single condition, the run leaves the table untouched when an
Unread notification with its key exists and inserts exactly the fresh
Unread notification when it does not (i.e. when the prior one has been
marked Read). -/
theorem C7_notification_dedup (db : List Notif) (reqs : List AlertReq)
    (hinv : atMostOneUnread db) :
    generateFrom (generateFrom db reqs) reqs = generateFrom db reqs ∧
    atMostOneUnread (generateFrom db reqs) ∧
    (∀ req : AlertReq,
      (hasUnread db req = true → createIfNotExists db req = db) ∧
      (hasUnread db req = false →
        createIfNotExists db req = db ++ [insertedNotif req])) := by
  refine ⟨?_, atMostOne_generateFrom reqs db hinv, ?_⟩
  · exact generateFrom_noop reqs (generateFrom db reqs)
      (fun r hr => hasUnread_generateFrom_mem reqs db r hr)
  · intro req
    constructor
    · intro h; unfold createIfNotExists; rw [if_pos h]
    · intro h
      unfold createIfNotExists
      rw [if_neg (by simp [h])]

/-- Witness for C7_notification_dedup: one low-stock condition scanned
twice over an empty table yields the same table as scanning once. -/
theorem C7_notification_dedup_witness :
    generateFrom
        (generateFrom ([] : List Notif)
          [⟨"Low Stock", "m", "Inventory", "Medium", "medicines", 1⟩])
        [⟨"Low Stock", "m", "Inventory", "Medium", "medicines", 1⟩] =
      generateFrom ([] : List Notif)
        [⟨"Low Stock", "m", "Inventory", "Medium", "medicines", 1⟩] :=
  (C7_notification_dedup []
    [⟨"Low Stock", "m", "Inventory", "Medium", "medicines", 1⟩]
    (fun _ => Nat.zero_le 1)).1

/-- C8. The inventory scan alerts on exactly the active medicines whose
quantity is at or below the low-stock threshold; each such medicine
contributes its Low Stock request to the scan, every scanned request
comes from such a medicine, and the request's severity is High when the
quantity is at or below the high-severity threshold and Medium
otherwise — in particular, with thresholds 10 and 5, quantity 9 gives
Medium and quantity 4 gives High. -/
theorem C8_low_stock_severity (lowT highT : Int) (meds : List Medicine)
    (m : Medicine) (hm : m ∈ meds) :
    (m ∈ lowStockRows lowT meds ↔ m.isActive = true ∧ m.stockQty ≤ lowT) ∧
    (m ∈ lowStockRows lowT meds →
      lowStockReq highT m ∈ lowStockScan lowT highT meds) ∧
    (∀ req ∈ lowStockScan lowT highT meds, ∃ m2 ∈ meds,
      m2.isActive = true ∧ m2.stockQty ≤ lowT ∧ req = lowStockReq highT m2) ∧
    (lowStockReq highT m).severity =
      (if m.stockQty ≤ highT then "High" else "Medium") ∧
    (lowStockReq 5 ⟨m.mid, m.name, 9, m.isActive⟩).severity = "Medium" ∧
    (lowStockReq 5 ⟨m.mid, m.name, 4, m.isActive⟩).severity = "High" := by
  refine ⟨?_, ?_, ?_, rfl, rfl, rfl⟩
  · simp [lowStockRows, List.mem_filter, hm, and_comm]
  · intro hrow
    exact List.mem_map_of_mem (lowStockReq highT) hrow
  · intro req hreq
    obtain ⟨m2, hm2, hre⟩ := List.mem_map.mp hreq
    have ha := List.mem_filter.mp hm2
    have hb := List.mem_filter.mp ha.1
    exact ⟨m2, hb.1, hb.2, by simpa using ha.2, hre.symm⟩

/-- Witness for C8_low_stock_severity: quantity 9 with thresholds 10
and 5 yields a Medium-severity Low Stock request. -/
theorem C8_low_stock_severity_witness :
    (lowStockReq 5 ⟨1, "X", 9, true⟩).severity = "Medium" :=
  (C8_low_stock_severity 10 5 [⟨1, "X", 9, true⟩] ⟨1, "X", 9, true⟩
    (List.mem_singleton.mpr rfl)).2.2.2.2.1

end PharmacyERP
